import Mathlib

/-!
Verification of the WhatsApp RAG voice-agent core: a shallow embedding of
the message normalizer (`_extract_messages`), the per-message handler
(`handle_message` and the text/audio flows), the RAG engine
(`RAGEngine._build_query_engine` / `RAGEngine.query`) and the outbound
transport (`WhatsAppClient.send_message`), with theorems settling the
spec's claims about them.

External collaborators (HTTP transport, transcription, synthesis, the
generative backend) are modelled as oracles supplied in an environment
record; exceptions are modelled with `Except`.
-/

namespace WaRag

/-- Python exception kinds that the embedded code can raise. `ext` stands
for an arbitrary exception raised inside an external collaborator call. -/
inductive PyErr where
  | attributeError
  | typeError
  | valueError
  | ext (tag : Nat)
deriving DecidableEq, Repr

/-- JSON values, the input domain of `_extract_messages` (the webhook body
is `await request.json()`). -/
inductive J where
  | null
  | b (x : Bool)
  | n (x : Int)
  | s (x : String)
  | arr (xs : List J)
  | obj (kvs : List (String × J))

/-- First-match lookup in an object's key/value list (Python dict keys are
unique, so first-match agrees with dict lookup). -/
def jlookup : List (String × J) → String → Option J
  | [], _ => none
  | (k, v) :: rest, key => if k = key then some v else jlookup rest key

/-- Python `receiver.get(key, default)`: only dicts have `.get`; on any
other value it raises `AttributeError`. -/
def pyGet (v : J) (key : String) (default : J) : Except PyErr J :=
  match v with
  | .obj kvs => .ok ((jlookup kvs key).getD default)
  | _ => .error .attributeError

/-- Python truthiness of a JSON value (`if not x`). -/
def truthy : J → Bool
  | .null => false
  | .b x => x
  | .n x => x ≠ 0
  | .s x => x ≠ ""
  | .arr xs => !xs.isEmpty
  | .obj kvs => !kvs.isEmpty

/-- Python `for x in v`: lists yield elements, strings yield 1-character
strings, dicts yield their keys; other values raise `TypeError`. -/
def pyIter (v : J) : Except PyErr (List J) :=
  match v with
  | .arr xs => .ok xs
  | .s x => .ok (x.toList.map fun c => .s (String.mk [c]))
  | .obj kvs => .ok (kvs.map fun kv => .s kv.1)
  | _ => .error .typeError

/-- Python `v == "lit"` for a JSON value against a string literal. -/
def isStr (v : J) (lit : String) : Bool :=
  match v with
  | .s y => y = lit
  | _ => false

/-- One iteration of the innermost loop of `_extract_messages`: inspects a
single entry of `value.messages` and yields the dict to append, if any.
Mirrors the source line by line: read `type` and `from`, skip on falsy
`from`, then branch on the type; any raising attribute access aborts. -/
def processMessage (message : J) : Except PyErr (Option J) :=
  match pyGet message "type" .null with
  | .error e => .error e
  | .ok msgType =>
    match pyGet message "from" .null with
    | .error e => .error e
    | .ok fromId =>
      if !truthy fromId then .ok none
      else if isStr msgType "text" then
        match pyGet message "text" (.obj []) with
        | .error e => .error e
        | .ok textObj =>
          match pyGet textObj "body" (.s "") with
          | .error e => .error e
          | .ok body =>
            .ok (some (.obj [("from", fromId), ("type", .s "text"), ("text", body)]))
      else if isStr msgType "audio" then
        match pyGet message "audio" (.obj []) with
        | .error e => .error e
        | .ok audioObj =>
          match pyGet audioObj "id" .null with
          | .error e => .error e
          | .ok audioId =>
            if truthy audioId then
              match pyGet audioObj "mime_type" .null with
              | .error e => .error e
              | .ok mime =>
                .ok (some (.obj [("from", fromId), ("type", .s "audio"),
                  ("audio_id", audioId), ("mime_type", mime)]))
            else .ok none
      else .ok none

/-- The loop `for message in value.messages`: each iteration appends its
own contribution; the first raising iteration aborts the whole call. -/
def processMessages : List J → Except PyErr (List J)
  | [] => .ok []
  | m :: rest =>
    match processMessage m with
    | .error e => .error e
    | .ok head =>
      match processMessages rest with
      | .error e => .error e
      | .ok tail =>
        match head with
        | none => .ok tail
        | some x => .ok (x :: tail)

/-- One iteration of `for change in entry.changes`: reads
`change.get("value", {})` then iterates `value.get("messages", [])`. -/
def processChange (change : J) : Except PyErr (List J) :=
  match pyGet change "value" (.obj []) with
  | .error e => .error e
  | .ok value =>
    match pyGet value "messages" (.arr []) with
    | .error e => .error e
    | .ok msgsV =>
      match pyIter msgsV with
      | .error e => .error e
      | .ok msgs => processMessages msgs

def processChanges : List J → Except PyErr (List J)
  | [] => .ok []
  | c :: rest =>
    match processChange c with
    | .error e => .error e
    | .ok xs =>
      match processChanges rest with
      | .error e => .error e
      | .ok ys => .ok (xs ++ ys)

/-- One iteration of `for entry in payload.entry`. -/
def processEntry (entry : J) : Except PyErr (List J) :=
  match pyGet entry "changes" (.arr []) with
  | .error e => .error e
  | .ok changesV =>
    match pyIter changesV with
    | .error e => .error e
    | .ok changes => processChanges changes

def processEntries : List J → Except PyErr (List J)
  | [] => .ok []
  | e :: rest =>
    match processEntry e with
    | .error e2 => .error e2
    | .ok xs =>
      match processEntries rest with
      | .error e2 => .error e2
      | .ok ys => .ok (xs ++ ys)

/-- `_extract_messages(payload)` (src/app/routers/whatsapp.py): traverses
`entry[].changes[].value.messages[]` and collects normalized message
dicts. Result is `Except` because the Python attribute accesses can
raise on ill-typed payloads. -/
def extractMessages (payload : J) : Except PyErr (List J) :=
  match pyGet payload "entry" (.arr []) with
  | .error e => .error e
  | .ok entriesV =>
    match pyIter entriesV with
    | .error e => .error e
    | .ok entries => processEntries entries

/-! ## RAG engine (src/app/services/rag_service.py) -/

/-- Result object of a retrieval query `self._query_engine.query(prompt)`:
`response` is `some t` when the Python object has a `.response` attribute
holding `t`; `asString` is its `str(...)` rendering. -/
structure RagResp where
  response : Option String
  asString : String

/-- A loaded document (contents are irrelevant to the claims). -/
abbrev Doc := String

/-- `RAGEngine._build_query_engine`: returns `none` (fallback mode) when
the data directory does not exist, when loading raised, when zero
documents were loaded, or when index construction raised; otherwise the
built engine. The oracles stand for `SimpleDirectoryReader(...).load_data()`
and `VectorStoreIndex.from_documents(...).as_query_engine()` (together
with the model-handle constructions inside the same `try`). -/
def buildQueryEngine (dirExists : Bool) (loadData : Except PyErr (List Doc))
    (buildIndex : List Doc → Except PyErr (String → RagResp)) :
    Option (String → RagResp) :=
  if !dirExists then none
  else
    match loadData with
    | .error _ => none
    | .ok docs =>
      if docs.isEmpty then none
      else
        match buildIndex docs with
        | .error _ => none
        | .ok qe => some qe

/-- Backend calls a `query` can make: a direct completion
(`llm.complete(...)`) or a retrieval query (`self._query_engine.query`). -/
inductive RagCall where
  | complete (prompt : String)
  | retrieve (prompt : String)
deriving DecidableEq, Repr

def RagCall.isRetrieve : RagCall → Bool
  | .retrieve _ => true
  | _ => false

/-- The fixed reply for an empty prompt. -/
def noInputMsg : String := "No input provided."

/-- The framing prepended to the prompt on the fallback path. -/
def fallbackFraming (prompt : String) : String :=
  "You are a helpful assistant. Answer briefly: " ++ prompt

/-- `RAGEngine.query(prompt)`. `engine` is the immutable
`self._query_engine` field (`none` = fallback mode); `complete` is the
oracle for `llm.complete(...).text`. Returns the reply together with the
list of backend calls issued. -/
def ragQuery (engine : Option (String → RagResp)) (complete : String → String)
    (prompt : String) : String × List RagCall :=
  if prompt = "" then (noInputMsg, [])
  else
    match engine with
    | none =>
      (complete (fallbackFraming prompt), [.complete (fallbackFraming prompt)])
    | some qe =>
      let r := qe prompt
      match r.response with
      | some t => (t, [.retrieve prompt])
      | none => (r.asString, [.retrieve prompt])

/-! ## Outbound transport (src/app/services/whatsapp_client.py) -/

/-- The JSON payload `WhatsAppClient.send_message` posts to the Graph API
(fields beyond the constant `messaging_product` header). -/
structure SendPayload where
  dest : String
  msgType : String
  textBody : Option String
  audioId : Option String
deriving DecidableEq, Repr

/-- Python `text[:1000]`: the first `n` code points. -/
def pyTruncate (s : String) (n : Nat) : String := String.mk (s.toList.take n)

/-- Python truthiness of an `Optional[str]` (`if media_id:`). -/
def truthyOptStr : Option String → Bool
  | none => false
  | some s => s ≠ ""

/-- `WhatsAppClient.send_message(to, text, media_id)`: builds the request
payload, raising `ValueError` before any HTTP call when there is neither
a (truthy) media id nor non-empty text. The HTTP POST itself is external;
the returned payload is what would be sent. -/
def sendMessage (dest text : String) (mediaId : Option String) :
    Except PyErr SendPayload :=
  if truthyOptStr mediaId then
    .ok ⟨dest, "audio", none, mediaId⟩
  else if text = "" then
    .error .valueError
  else
    .ok ⟨dest, "text", some (pyTruncate text 1000), none⟩

/-! ## Flow orchestrator (src/app/routers/whatsapp.py) -/

/-- A normalized message as consumed by `handle_message` (the dicts built
by `_extract_messages` carry exactly these fields). -/
inductive NormMsg where
  | text (fromId : String) (body : String)
  | audio (fromId : String) (audioId : String) (mime : Option String)
deriving DecidableEq, Repr

def NormMsg.fromId : NormMsg → String
  | .text f _ => f
  | .audio f _ _ => f

/-- Observable external calls a flow makes: RAG queries and transport
sends (`send` records the arguments of each `send_message` call, whether
or not that call then raises). -/
inductive Ev where
  | query (prompt : String)
  | send (dest text : String) (mediaId : Option String)
deriving DecidableEq, Repr

/-- Environment of oracles for one message-handling task: outcomes of the
external collaborator calls the flows make. `ragQueryRes` is the outcome
of the engine's `query` on a given prompt; `sendRes` the outcome of the
client's `send_message` on given arguments; the rest drive the audio
round-trip. -/
structure FlowEnv where
  download : String → Except PyErr (List Nat)
  transcribe : Except PyErr String
  ragQueryRes : String → Except PyErr String
  generateAudio : String → Except PyErr String
  uploadMedia : String → Except PyErr String
  sendRes : String → String → Option String → Except PyErr Unit

/-- The clarification sent for an empty text message. -/
def clarifyMsg : String := "No recibí texto. ¿Puedes intentarlo de nuevo?"

/-- The apology sent by the per-message failure boundary. -/
def apologyMsg : String :=
  "Ocurrió un error procesando tu mensaje. Por favor, intenta nuevamente."

/-- Result of one flow execution: its outcome (normal return or the
propagating exception), the trace of query/send calls, and the lifecycle
bits of the two audio-flow temp files (all `false` for the text flow). -/
structure FlowOut where
  outcome : Except PyErr Unit
  events : List Ev
  tmpCreated : Bool
  tmpDeleted : Bool
  synthCreated : Bool
  synthDeleted : Bool
deriving Repr

/-- `_handle_text_flow(user_id, text)`: empty text sends a clarification
and returns; otherwise query the RAG engine and send its response. -/
def handleTextFlow (userId text : String) (env : FlowEnv) : FlowOut :=
  if text = "" then
    match env.sendRes userId clarifyMsg none with
    | .ok _ => ⟨.ok (), [.send userId clarifyMsg none], false, false, false, false⟩
    | .error e => ⟨.error e, [.send userId clarifyMsg none], false, false, false, false⟩
  else
    match env.ragQueryRes text with
    | .error e => ⟨.error e, [.query text], false, false, false, false⟩
    | .ok resp =>
      match env.sendRes userId resp none with
      | .ok _ => ⟨.ok (), [.query text, .send userId resp none], false, false, false, false⟩
      | .error e => ⟨.error e, [.query text, .send userId resp none], false, false, false, false⟩

/-- The `try` body of `_handle_audio_flow` (steps 2-6 plus the success
path's cleanup of the synthesized file), given that download succeeded
and the first temp file exists. Returns outcome, events, and the
created/deleted bits of the second (synthesized) temp file. -/
def audioFlowTry (userId : String) (env : FlowEnv) :
    Except PyErr Unit × List Ev × Bool × Bool :=
  match env.transcribe with
  | .error e => (.error e, [], false, false)
  | .ok transcript =>
    match env.ragQueryRes transcript with
    | .error e => (.error e, [.query transcript], false, false)
    | .ok resp =>
      match env.generateAudio resp with
      | .error e => (.error e, [.query transcript], false, false)
      | .ok audioPath =>
        match env.uploadMedia audioPath with
        | .error e => (.error e, [.query transcript], true, false)
        | .ok mediaId =>
          match env.sendRes userId "" (some mediaId) with
          | .error e =>
            (.error e, [.query transcript, .send userId "" (some mediaId)], true, false)
          | .ok _ =>
            (.ok (), [.query transcript, .send userId "" (some mediaId)], true, true)

/-- `_handle_audio_flow(user_id, audio_id, mime_type)`: download, persist
to a temp file, then the `try` body; the `finally` deletes the first temp
file on every exit path of the `try`. -/
def handleAudioFlow (userId audioId : String) (env : FlowEnv) : FlowOut :=
  match env.download audioId with
  | .error e => ⟨.error e, [], false, false, false, false⟩
  | .ok _bytes =>
    let r := audioFlowTry userId env
    ⟨r.1, r.2.1, true, true, r.2.2.1, r.2.2.2⟩

/-- The `try` body of `handle_message`: dispatch on the message type to
the text or audio flow. -/
def flowBody (msg : NormMsg) (env : FlowEnv) : FlowOut :=
  match msg with
  | .text f b => handleTextFlow f b env
  | .audio f a _ => handleAudioFlow f a env

/-- `handle_message(message)`: dispatch to the text or audio flow; any
exception from the flow body is caught, and one apology send to the same
sender is attempted; an exception from that send propagates. -/
def handleMessage (msg : NormMsg) (env : FlowEnv) : FlowOut :=
  let body := flowBody msg env
  match body.outcome with
  | .ok _ => body
  | .error _ =>
    match env.sendRes msg.fromId apologyMsg none with
    | .ok _ =>
      { body with outcome := .ok (), events := body.events ++ [.send msg.fromId apologyMsg none] }
    | .error e2 =>
      { body with outcome := .error e2, events := body.events ++ [.send msg.fromId apologyMsg none] }

/-! ## Predicates and concrete payloads used by the theorems -/

def isStrOpt (v : Option J) (lit : String) : Bool :=
  match v with
  | some w => isStr w lit
  | none => false

/-- The spec's kind-consistency of one normalized message dict: a text
message carries a `text` field and no `audio_id`; an audio message
carries an `audio_id` and no `text` field. -/
def kindConsistent (m : J) : Bool :=
  match m with
  | .obj kvs =>
    (isStrOpt (jlookup kvs "type") "text"
      && (jlookup kvs "text").isSome && (jlookup kvs "audio_id").isNone)
    || (isStrOpt (jlookup kvs "type") "audio"
      && (jlookup kvs "audio_id").isSome && (jlookup kvs "text").isNone)
  | _ => false

/-- A message entry that `_extract_messages` skips without raising: an
object whose `from` is absent or falsy; or with truthy `from` and a type
that is neither "text" nor "audio"; or a truthy-`from` audio entry whose
`audio` field is absent or an object without a truthy `id`. -/
def droppedSafely (m : J) : Bool :=
  match m with
  | .obj kvs =>
    if !truthy ((jlookup kvs "from").getD .null) then true
    else if isStr ((jlookup kvs "type").getD .null) "text" then false
    else if isStr ((jlookup kvs "type").getD .null) "audio" then
      match (jlookup kvs "audio").getD (.obj []) with
      | .obj akvs => !truthy ((jlookup akvs "id").getD .null)
      | _ => false
    else true
  | _ => false

/-- A webhook payload of the usual single-entry, single-change shape
carrying the given `messages` list. -/
def mkPayload (msgs : List J) : J :=
  .obj [("entry", .arr [.obj [("changes", .arr [.obj [("value",
    .obj [("messages", .arr msgs)])]])]])]

/-- A type-"text" entry whose `text` field is a JSON string rather than
an object: `message.get("text", {}).get("body", "")` raises
`AttributeError` on it. -/
def badTextEntry : J :=
  .obj [("from", .s "u1"), ("type", .s "text"), ("text", .s "boom")]

/-- A type-"audio" entry with no media id anywhere: its `audio` field is
a JSON string, so `message.get("audio", {}).get("id")` raises
`AttributeError`. -/
def badAudioEntry : J :=
  .obj [("from", .s "u1"), ("type", .s "audio"), ("audio", .s "oops")]

/-- A well-formed text entry. -/
def goodTextEntry : J :=
  .obj [("from", .s "u2"), ("type", .s "text"),
    ("text", .obj [("body", .s "hola")])]

/-- The normalized dict `_extract_messages` produces for `goodTextEntry`. -/
def goodTextOut : J :=
  .obj [("from", .s "u2"), ("type", .s "text"), ("text", .s "hola")]

/-! ## Helper lemmas on the normalizer -/

theorem processMessage_ok_some (m x : J) (h : processMessage m = .ok (some x)) :
    kindConsistent x = true := by
  unfold processMessage at h
  split at h
  · exact absurd h (by simp)
  · split at h
    · exact absurd h (by simp)
    · split at h
      · exact absurd h (by simp)
      · split at h
        · split at h
          · exact absurd h (by simp)
          · split at h
            · exact absurd h (by simp)
            · simp at h
              subst h
              rfl
        · split at h
          · split at h
            · exact absurd h (by simp)
            · split at h
              · exact absurd h (by simp)
              · split at h
                · split at h
                  · exact absurd h (by simp)
                  · simp at h
                    subst h
                    rfl
                · exact absurd h (by simp)
          · exact absurd h (by simp)

theorem processMessages_kindConsistent (ms : List J) :
    ∀ out, processMessages ms = .ok out → ∀ x ∈ out, kindConsistent x = true := by
  induction ms with
  | nil =>
    intro out h x hx
    simp [processMessages] at h
    subst h
    simp at hx
  | cons m rest ih =>
    intro out h x hx
    unfold processMessages at h
    cases hm : processMessage m with
    | error e => rw [hm] at h; exact absurd h (by simp)
    | ok head =>
      rw [hm] at h
      cases ht : processMessages rest with
      | error e => rw [ht] at h; exact absurd h (by simp)
      | ok tail =>
        rw [ht] at h
        cases head with
        | none =>
          simp at h
          subst h
          exact ih _ ht x hx
        | some y =>
          simp at h
          subst h
          rcases List.mem_cons.mp hx with h1 | h2
          · subst h1
            exact processMessage_ok_some m x hm
          · exact ih tail ht x h2

theorem processChange_kindConsistent (c : J) (out : List J)
    (h : processChange c = .ok out) : ∀ x ∈ out, kindConsistent x = true := by
  unfold processChange at h
  split at h
  · exact absurd h (by simp)
  · split at h
    · exact absurd h (by simp)
    · split at h
      · exact absurd h (by simp)
      · exact processMessages_kindConsistent _ out h

theorem processChanges_kindConsistent (cs : List J) :
    ∀ out, processChanges cs = .ok out → ∀ x ∈ out, kindConsistent x = true := by
  induction cs with
  | nil =>
    intro out h x hx
    simp [processChanges] at h
    subst h
    simp at hx
  | cons c rest ih =>
    intro out h x hx
    unfold processChanges at h
    cases hc : processChange c with
    | error e => rw [hc] at h; exact absurd h (by simp)
    | ok xs =>
      rw [hc] at h
      cases hr : processChanges rest with
      | error e => rw [hr] at h; exact absurd h (by simp)
      | ok ys =>
        rw [hr] at h
        simp at h
        subst h
        rcases List.mem_append.mp hx with h1 | h2
        · exact processChange_kindConsistent c xs hc x h1
        · exact ih ys hr x h2

theorem processEntry_kindConsistent (en : J) (out : List J)
    (h : processEntry en = .ok out) : ∀ x ∈ out, kindConsistent x = true := by
  unfold processEntry at h
  split at h
  · exact absurd h (by simp)
  · split at h
    · exact absurd h (by simp)
    · exact processChanges_kindConsistent _ out h

theorem processEntries_kindConsistent (es : List J) :
    ∀ out, processEntries es = .ok out → ∀ x ∈ out, kindConsistent x = true := by
  induction es with
  | nil =>
    intro out h x hx
    simp [processEntries] at h
    subst h
    simp at hx
  | cons en rest ih =>
    intro out h x hx
    unfold processEntries at h
    cases he : processEntry en with
    | error e => rw [he] at h; exact absurd h (by simp)
    | ok xs =>
      rw [he] at h
      cases hr : processEntries rest with
      | error e => rw [hr] at h; exact absurd h (by simp)
      | ok ys =>
        rw [hr] at h
        simp at h
        subst h
        rcases List.mem_append.mp hx with h1 | h2
        · exact processEntry_kindConsistent en xs he x h1
        · exact ih ys hr x h2

/-- A safely-dropped entry contributes nothing and raises nothing. -/
theorem processMessage_droppedSafely (m : J) (hm : droppedSafely m = true) :
    processMessage m = .ok none := by
  cases m with
  | obj kvs =>
    simp only [droppedSafely] at hm
    unfold processMessage
    simp only [pyGet]
    by_cases hfrom : truthy ((jlookup kvs "from").getD .null) = false
    · simp [hfrom]
    · simp only [Bool.not_eq_false] at hfrom
      simp only [hfrom, Bool.not_true, Bool.false_eq_true, if_false] at hm ⊢
      by_cases htext : isStr ((jlookup kvs "type").getD .null) "text" = true
      · simp [htext] at hm
      · simp only [Bool.not_eq_true] at htext
        simp only [htext, Bool.false_eq_true, if_false] at hm ⊢
        by_cases haud : isStr ((jlookup kvs "type").getD .null) "audio" = true
        · simp only [haud, if_true] at hm ⊢
          cases hao : (jlookup kvs "audio").getD (.obj []) with
          | obj akvs =>
            simp only [hao] at hm ⊢
            simp at hm
            simp [pyGet, hm]
          | null => simp [hao] at hm
          | b v => simp [hao] at hm
          | n v => simp [hao] at hm
          | s v => simp [hao] at hm
          | arr xs => simp [hao] at hm
        · simp only [Bool.not_eq_true] at haud
          simp [haud]
  | null => simp [droppedSafely] at hm
  | b v => simp [droppedSafely] at hm
  | n v => simp [droppedSafely] at hm
  | s v => simp [droppedSafely] at hm
  | arr xs => simp [droppedSafely] at hm

/-- Removing a safely-dropped entry from a messages list does not change
the result of the inner loop. -/
theorem processMessages_drop (m : J) (hm : droppedSafely m = true)
    (pre post : List J) :
    processMessages (pre ++ m :: post) = processMessages (pre ++ post) := by
  induction pre with
  | nil =>
    show processMessages (m :: post) = processMessages post
    cases hp : processMessages post with
    | error e =>
      unfold processMessages
      rw [processMessage_droppedSafely m hm, hp]
    | ok tail =>
      unfold processMessages
      rw [processMessage_droppedSafely m hm, hp]
  | cons p rest ih =>
    show processMessages (p :: (rest ++ m :: post)) = processMessages (p :: (rest ++ post))
    unfold processMessages
    rw [ih]

/-! ## Theorems -/

/-- C7: `query("")` returns the fixed no-input message and issues no
backend call (neither a completion nor a retrieval call), in both
fallback mode (`engine = none`) and index-available mode. -/
theorem C7_empty_prompt_no_backend (engine : Option (String → RagResp))
    (complete : String → String) :
    ragQuery engine complete "" = (noInputMsg, []) := by
  simp [ragQuery]

/-- C4: if the engine was built in fallback mode (missing data directory,
a load failure, zero documents, or an index-build failure), then every
`query` on a non-empty prompt issues exactly one direct completion call
and no retrieval call. `ragQuery` is a pure function of the immutable
`_query_engine` field, so this holds for every call for the lifetime of
the process. -/
theorem C4_fallback_never_retrieves (dirExists : Bool)
    (loadData : Except PyErr (List Doc))
    (buildIndex : List Doc → Except PyErr (String → RagResp))
    (complete : String → String) (prompt : String)
    (hfb : dirExists = false ∨ (∃ e, loadData = .error e) ∨ loadData = .ok [] ∨
      (∃ docs e, loadData = .ok docs ∧ buildIndex docs = .error e))
    (hp : prompt ≠ "") :
    buildQueryEngine dirExists loadData buildIndex = none ∧
    (ragQuery (buildQueryEngine dirExists loadData buildIndex) complete prompt).2 =
      [RagCall.complete (fallbackFraming prompt)] ∧
    ∀ c ∈ (ragQuery (buildQueryEngine dirExists loadData buildIndex) complete prompt).2,
      c.isRetrieve = false := by
  have hnone : buildQueryEngine dirExists loadData buildIndex = none := by
    rcases hfb with h | ⟨e, h⟩ | h | ⟨docs, e, h1, h2⟩
    · simp [buildQueryEngine, h]
    · cases dirExists <;> simp [buildQueryEngine, h]
    · cases dirExists <;> simp [buildQueryEngine, h]
    · by_cases hd : docs.isEmpty <;>
        cases dirExists <;> simp [buildQueryEngine, h1, h2, hd]
  refine ⟨hnone, ?_, ?_⟩
  · rw [hnone]; simp [ragQuery, hp]
  · rw [hnone]
    intro c hc
    simp [ragQuery, hp] at hc
    simp [hc, RagCall.isRetrieve]

/-- Witness for C4 at a concrete fallback construction and prompt. -/
theorem C4_fallback_never_retrieves_witness :
    buildQueryEngine false (.ok []) (fun _ => .error (.ext 0)) = none ∧
    (ragQuery (buildQueryEngine false (.ok []) (fun _ => .error (.ext 0)))
        (fun _ => "ans") "hola").2 = [RagCall.complete (fallbackFraming "hola")] ∧
    ∀ c ∈ (ragQuery (buildQueryEngine false (.ok []) (fun _ => .error (.ext 0)))
        (fun _ => "ans") "hola").2, c.isRetrieve = false :=
  C4_fallback_never_retrieves false (.ok []) (fun _ => .error (.ext 0))
    (fun _ => "ans") "hola" (Or.inl rfl) (by decide)

/-- C9: with no media id, `send_message` raises `ValueError` before any
HTTP send when the text is empty; with non-empty text, the body actually
sent is the input truncated to at most 1000 characters. -/
theorem C9_send_guard_and_truncation (dest text : String) :
    (text = "" → sendMessage dest text none = .error .valueError) ∧
    (text ≠ "" →
      sendMessage dest text none = .ok ⟨dest, "text", some (pyTruncate text 1000), none⟩ ∧
      (pyTruncate text 1000).length ≤ 1000) := by
  constructor
  · intro h
    simp [sendMessage, truthyOptStr, h]
  · intro h
    refine ⟨by simp [sendMessage, truthyOptStr, h], ?_⟩
    show (text.toList.take 1000).length ≤ 1000
    simp

/-- Witness for C9 at empty and non-empty concrete texts. -/
theorem C9_send_guard_and_truncation_witness :
    sendMessage "5551234" "" none = .error .valueError ∧
    (sendMessage "5551234" "hola" none =
        .ok ⟨"5551234", "text", some (pyTruncate "hola" 1000), none⟩ ∧
      (pyTruncate "hola" 1000).length ≤ 1000) :=
  ⟨(C9_send_guard_and_truncation "5551234" "").1 rfl,
   (C9_send_guard_and_truncation "5551234" "hola").2 (by decide)⟩

/-- C2: whenever the audio flow created the first temp file (i.e. the
download succeeded and the bytes were persisted), that file is deleted by
the `finally` on every exit path of the flow, whichever later step
raises. -/
theorem C2_first_tmp_always_deleted (userId audioId : String) (env : FlowEnv)
    (h : (handleAudioFlow userId audioId env).tmpCreated = true) :
    (handleAudioFlow userId audioId env).tmpDeleted = true := by
  unfold handleAudioFlow at h ⊢
  cases hd : env.download audioId with
  | error e => rw [hd] at h; simp at h
  | ok bs => rfl

/-- Witness for C2: a run whose transcription raises. -/
theorem C2_first_tmp_always_deleted_witness :
    (handleAudioFlow "u" "a" ⟨fun _ => .ok [0], .error (.ext 1), fun p => .ok p,
      fun _ => .ok "f.mp3", fun _ => .ok "m1", fun _ _ _ => .ok ()⟩).tmpDeleted = true :=
  C2_first_tmp_always_deleted "u" "a" _ rfl

/-- C1 counterexample: a run in which download, transcription, the RAG
query, synthesis and upload all succeed but the send (step 6) raises.
The synthesized (second) temp file was created yet is NOT deleted — its
unlink sits on the success path after step 6, not in a `finally` — so
deletion is not guaranteed "regardless of whether the upload and the send
succeed or raise". -/
theorem C1_counterexample :
    (handleAudioFlow "u" "a" ⟨fun _ => .ok [0], .ok "t", fun _ => .ok "r",
      fun _ => .ok "f.mp3", fun _ => .ok "m1", fun _ _ _ => .error (.ext 7)⟩).synthCreated
      = true ∧
    (handleAudioFlow "u" "a" ⟨fun _ => .ok [0], .ok "t", fun _ => .ok "r",
      fun _ => .ok "f.mp3", fun _ => .ok "m1", fun _ _ _ => .error (.ext 7)⟩).synthDeleted
      = false :=
  ⟨rfl, rfl⟩

/-- C1 amended: the second (synthesized) temp file is deleted exactly
when the whole flow returns normally — i.e. only when the upload and the
send both succeed after synthesis; if the upload or the send raises, the
file is left behind, and if synthesis (or any earlier step) fails no
second file exists. -/
theorem C1_synth_deleted_iff_flow_succeeds (userId audioId : String) (env : FlowEnv) :
    (handleAudioFlow userId audioId env).synthDeleted = true ↔
    (handleAudioFlow userId audioId env).outcome = .ok () := by
  unfold handleAudioFlow
  cases hd : env.download audioId with
  | error e => simp
  | ok bs =>
    show (audioFlowTry userId env).2.2.2 = true ↔ (audioFlowTry userId env).1 = .ok ()
    unfold audioFlowTry
    cases h1 : env.transcribe with
    | error e => simp [h1]
    | ok t =>
      cases h2 : env.ragQueryRes t with
      | error e => simp [h1, h2]
      | ok r =>
        cases h3 : env.generateAudio r with
        | error e => simp [h1, h2, h3]
        | ok p =>
          cases h4 : env.uploadMedia p with
          | error e => simp [h1, h2, h3, h4]
          | ok m =>
            cases h5 : env.sendRes userId "" (some m) with
            | error e => simp [h1, h2, h3, h4, h5]
            | ok u => simp [h1, h2, h3, h4, h5]

/-- C8: on an empty text message the text flow makes exactly one external
call, the clarification send, and no RAG query; on a non-empty text whose
RAG query returns `r`, it makes exactly the query call followed by a send
of `r` to the same sender. -/
theorem C8_text_flow_calls (userId text : String) (env : FlowEnv) :
    (text = "" →
      (handleTextFlow userId text env).events = [Ev.send userId clarifyMsg none]) ∧
    (∀ r, text ≠ "" → env.ragQueryRes text = .ok r →
      (handleTextFlow userId text env).events = [Ev.query text, Ev.send userId r none]) := by
  constructor
  · intro h
    subst h
    cases hs : env.sendRes userId clarifyMsg none <;> simp [handleTextFlow, hs]
  · intro r hne hq
    cases hs : env.sendRes userId r none <;> simp [handleTextFlow, hne, hq, hs]

/-- Witness for C8 at an empty and a non-empty concrete message. -/
theorem C8_text_flow_calls_witness :
    (handleTextFlow "u" "" ⟨fun _ => .ok [], .ok "", fun _ => .ok "RESP",
        fun _ => .ok "", fun _ => .ok "", fun _ _ _ => .ok ()⟩).events =
      [Ev.send "u" clarifyMsg none] ∧
    (handleTextFlow "u" "hola" ⟨fun _ => .ok [], .ok "", fun _ => .ok "RESP",
        fun _ => .ok "", fun _ => .ok "", fun _ _ _ => .ok ()⟩).events =
      [Ev.query "hola", Ev.send "u" "RESP" none] :=
  ⟨(C8_text_flow_calls "u" "" _).1 rfl,
   (C8_text_flow_calls "u" "hola" _).2 "RESP" (by decide) rfl⟩

/-- C3: if the flow body of `handle_message` raises, the handler catches
it and performs exactly one trailing apology send to the same sender; if
that send succeeds the handler returns normally, and if the apology send
itself raises, that exception is the one propagating to the caller. -/
theorem C3_failure_boundary (msg : NormMsg) (env : FlowEnv) (e : PyErr)
    (hbody : (flowBody msg env).outcome = .error e) :
    (env.sendRes msg.fromId apologyMsg none = .ok () →
      (handleMessage msg env).outcome = .ok () ∧
      (handleMessage msg env).events =
        (flowBody msg env).events ++ [Ev.send msg.fromId apologyMsg none]) ∧
    (∀ e2, env.sendRes msg.fromId apologyMsg none = .error e2 →
      (handleMessage msg env).outcome = .error e2 ∧
      (handleMessage msg env).events =
        (flowBody msg env).events ++ [Ev.send msg.fromId apologyMsg none]) := by
  constructor
  · intro hs
    simp [handleMessage, hbody, hs]
  · intro e2 hs
    simp [handleMessage, hbody, hs]

/-- Witness for C3: a text message whose RAG query raises, once with a
succeeding apology send and once with a failing one. -/
theorem C3_failure_boundary_witness :
    ((handleMessage (.text "u" "x") ⟨fun _ => .ok [], .ok "", fun _ => .error (.ext 2),
        fun _ => .ok "", fun _ => .ok "", fun _ _ _ => .ok ()⟩).outcome = .ok () ∧
      (handleMessage (.text "u" "x") ⟨fun _ => .ok [], .ok "", fun _ => .error (.ext 2),
        fun _ => .ok "", fun _ => .ok "", fun _ _ _ => .ok ()⟩).events =
        (flowBody (.text "u" "x") ⟨fun _ => .ok [], .ok "", fun _ => .error (.ext 2),
          fun _ => .ok "", fun _ => .ok "", fun _ _ _ => .ok ()⟩).events ++
          [Ev.send (NormMsg.fromId (.text "u" "x")) apologyMsg none]) ∧
    ((handleMessage (.text "u" "x") ⟨fun _ => .ok [], .ok "", fun _ => .error (.ext 2),
        fun _ => .ok "", fun _ => .ok "", fun _ _ _ => .error (.ext 3)⟩).outcome =
        .error (.ext 3) ∧
      (handleMessage (.text "u" "x") ⟨fun _ => .ok [], .ok "", fun _ => .error (.ext 2),
        fun _ => .ok "", fun _ => .ok "", fun _ _ _ => .error (.ext 3)⟩).events =
        (flowBody (.text "u" "x") ⟨fun _ => .ok [], .ok "", fun _ => .error (.ext 2),
          fun _ => .ok "", fun _ => .ok "", fun _ _ _ => .error (.ext 3)⟩).events ++
          [Ev.send (NormMsg.fromId (.text "u" "x")) apologyMsg none]) :=
  ⟨(C3_failure_boundary (.text "u" "x")
      ⟨fun _ => .ok [], .ok "", fun _ => .error (.ext 2),
        fun _ => .ok "", fun _ => .ok "", fun _ _ _ => .ok ()⟩ (.ext 2) rfl).1 rfl,
   (C3_failure_boundary (.text "u" "x")
      ⟨fun _ => .ok [], .ok "", fun _ => .error (.ext 2),
        fun _ => .ok "", fun _ => .ok "", fun _ _ _ => .error (.ext 3)⟩ (.ext 2) rfl).2
      (.ext 3) rfl⟩

/-- C5 counterexample: a payload that passes the `Dict` annotation, with
one message entry of type "text" carrying a sender id, whose `text` field
is a JSON string instead of an object. `message.get("text", {})` returns
that string and the chained `.get("body", "")` raises `AttributeError`,
so `normalize` does not return a list for every JSON webhook payload. -/
theorem C5_counterexample :
    extractMessages (mkPayload [badTextEntry]) = .error .attributeError := rfl

/-- C5 amended: `normalize` can raise on payloads whose traversed fields
are not of the expected JSON type; on every payload where it does return
a (possibly empty) list, every message in that list has its kind
consistent with which field is populated (a text message carries a `text`
field and no `audio_id`; an audio message carries an `audio_id` and no
`text` field). -/
theorem C5_returned_messages_kind_consistent (p : J) (ms : List J)
    (h : extractMessages p = .ok ms) : ∀ m ∈ ms, kindConsistent m = true := by
  unfold extractMessages at h
  split at h
  · exact absurd h (by simp)
  · split at h
    · exact absurd h (by simp)
    · exact processEntries_kindConsistent _ ms h

/-- Witness for C5 (amended) on a well-formed one-message payload. -/
theorem C5_returned_messages_kind_consistent_witness :
    kindConsistent goodTextOut = true :=
  C5_returned_messages_kind_consistent (mkPayload [goodTextEntry]) [goodTextOut] rfl
    goodTextOut (by simp)

/-- C6 counterexample: `badAudioEntry` has a sender id and type "audio"
but no media id anywhere (its `audio` field is the JSON string "oops").
With it present, `normalize` raises `AttributeError` and the well-formed
sibling entry is not normalized at all; without it, the sibling is
normalized. So a media-id-less audio entry CAN change how sibling
entries in the same payload are normalized. -/
theorem C6_counterexample :
    extractMessages (mkPayload [badAudioEntry, goodTextEntry]) = .error .attributeError ∧
    extractMessages (mkPayload [goodTextEntry]) = .ok [goodTextOut] :=
  ⟨rfl, rfl⟩

/-- C6 amended: restricted to entries the code skips without raising —
an object whose `from` is missing or falsy; or with truthy `from` and a
type neither "text" nor "audio"; or a truthy-`from` audio entry whose
`audio` field is absent or an object without a truthy `id` — such an
entry contributes nothing to the output and its removal leaves the
normalization of every sibling entry unchanged. (An entry that is not an
object, or an audio entry whose `audio` field is a non-object, instead
makes `normalize` raise, aborting the siblings too.) -/
theorem C6_dropped_entry_no_effect (m : J) (hm : droppedSafely m = true) :
    processMessage m = .ok none ∧
    ∀ pre post, processMessages (pre ++ m :: post) = processMessages (pre ++ post) :=
  ⟨processMessage_droppedSafely m hm, fun pre post => processMessages_drop m hm pre post⟩

/-- Witness for C6 (amended): an audio entry whose `audio` object has no
id, inserted between two well-formed entries. -/
theorem C6_dropped_entry_no_effect_witness :
    processMessage (.obj [("from", .s "u3"), ("type", .s "audio"), ("audio", .obj [])])
      = .ok none ∧
    ∀ pre post, processMessages
        (pre ++ (.obj [("from", .s "u3"), ("type", .s "audio"), ("audio", .obj [])]) :: post)
      = processMessages (pre ++ post) :=
  C6_dropped_entry_no_effect
    (.obj [("from", .s "u3"), ("type", .s "audio"), ("audio", .obj [])]) rfl

/-- C10: a type-"text" entry with a truthy sender id whose `text` field
is absent, or is an object lacking a `body` field, is normalized to a
Text message with empty text (not dropped); the text flow later answers
an empty text with the clarification reply. -/
theorem C10_absent_body_normalizes_to_empty_text (f : J) (kvs : List (String × J))
    (hfrom : jlookup kvs "from" = some f) (ht : truthy f = true)
    (htype : jlookup kvs "type" = some (.s "text"))
    (htext : jlookup kvs "text" = none ∨
      ∃ tkvs, jlookup kvs "text" = some (.obj tkvs) ∧ jlookup tkvs "body" = none) :
    processMessage (.obj kvs) =
      .ok (some (.obj [("from", f), ("type", .s "text"), ("text", .s "")])) ∧
    ∀ u env, (handleTextFlow u "" env).events = [Ev.send u clarifyMsg none] := by
  constructor
  · rcases htext with h | ⟨tkvs, h1, h2⟩
    · simp [processMessage, pyGet, hfrom, ht, htype, h, isStr, jlookup]
    · simp [processMessage, pyGet, hfrom, ht, htype, h1, h2, isStr, jlookup]
  · intro u env
    cases hs : env.sendRes u clarifyMsg none <;> simp [handleTextFlow, hs]

/-- Witness for C10: one entry lacking the `text` object entirely, one
whose `text` object lacks `body`. -/
theorem C10_absent_body_normalizes_to_empty_text_witness :
    (processMessage (.obj [("from", .s "u9"), ("type", .s "text")]) =
      .ok (some (.obj [("from", .s "u9"), ("type", .s "text"), ("text", .s "")])) ∧
      ∀ u env, (handleTextFlow u "" env).events = [Ev.send u clarifyMsg none]) ∧
    (processMessage (.obj [("from", .s "u8"), ("type", .s "text"),
        ("text", .obj [("preview", .b true)])]) =
      .ok (some (.obj [("from", .s "u8"), ("type", .s "text"), ("text", .s "")])) ∧
      ∀ u env, (handleTextFlow u "" env).events = [Ev.send u clarifyMsg none]) :=
  ⟨C10_absent_body_normalizes_to_empty_text (.s "u9") [("from", .s "u9"), ("type", .s "text")]
      rfl rfl rfl (Or.inl rfl),
   C10_absent_body_normalizes_to_empty_text (.s "u8")
      [("from", .s "u8"), ("type", .s "text"), ("text", .obj [("preview", .b true)])]
      rfl rfl rfl (Or.inr ⟨[("preview", .b true)], rfl, rfl⟩)⟩

end WaRag
